import Mathlib

/-!
Verification development for the manubot CURIE resolution engine and the
pandoc cite filter's metadata coercion.

The CURIE engine (`manubot/cite/curie.py`: `get_bioregistry`,
`get_prefix_to_resource`, `Handler_CURIE.inspect`, `curie_to_url`) is not
present in the sampled sources; only its test suite
(`manubot/cite/tests/test_curie.py`) is. Its definitions below are therefore
modelled from the specification document. The pandoc cite filter
(`manubot/pandoc/cite_filter.py`) is present and its metadata handling is
embedded directly from the source.
-/

/-- ASCII lowercase of a character, as used for case-insensitive matching
of registry prefixes. -/
def lowerChar (c : Char) : Char :=
  if 'A' ≤ c ∧ c ≤ 'Z' then Char.ofNat (c.toNat + 32) else c

/-- ASCII uppercase of a character. -/
def upperChar (c : Char) : Char :=
  if 'a' ≤ c ∧ c ≤ 'z' then Char.ofNat (c.toNat - 32) else c

/-- ASCII lowercase of a string. -/
def lowerStr (s : String) : String := ⟨s.data.map lowerChar⟩

/-- ASCII uppercase of a string. -/
def upperStr (s : String) : String := ⟨s.data.map upperChar⟩

/-- Modelled from the spec: registry accession patterns are regular
expressions matched against the entire accession string. The registry data
itself is missing from the sampled sources, so patterns are represented by
this small regular-expression syntax, sufficient for the records modelled
below. -/
inductive Rgx where
  | emp
  | eps
  | lit (c : Char)
  | digit
  | cat (a b : Rgx)
  | alt (a b : Rgx)
  | star (a : Rgx)
deriving Repr, DecidableEq

/-- Whether a regular expression accepts the empty string. -/
def nullable : Rgx → Bool
  | .emp => false
  | .eps => true
  | .lit _ => false
  | .digit => false
  | .cat a b => nullable a && nullable b
  | .alt a b => nullable a || nullable b
  | .star _ => true

/-- Brzozowski derivative of a regular expression by one character. -/
def rderiv (c : Char) : Rgx → Rgx
  | .emp => .emp
  | .eps => .emp
  | .lit d => if c = d then .eps else .emp
  | .digit => if c.isDigit then .eps else .emp
  | .cat a b =>
    if nullable a then .alt (.cat (rderiv c a) b) (rderiv c b)
    else .cat (rderiv c a) b
  | .alt a b => .alt (rderiv c a) (rderiv c b)
  | .star a => .cat (rderiv c a) (.star a)

/-- Full-string match of an accession against a pattern (the spec requires a
full-string match, not a substring search). -/
def fullmatch (r : Rgx) (s : String) : Bool :=
  nullable (s.data.foldl (fun r c => rderiv c r) r)

/-- Regular expression matching one literal string. -/
def strLit (s : String) : Rgx :=
  s.data.foldr (fun c r => Rgx.cat (.lit c) r) .eps

/-- Regular expression matching one or more decimal digits. -/
def digitsRgx : Rgx := .cat .digit (.star .digit)

/-- Modelled from the spec: one registry resource record. Fields `pattern`,
`exampleId` (the spec's `example`), `uriFormat` (the spec's
`uri_format`/`url_template`) and `preferredPrefix` (the spec's
`preferred_prefix`) are optional; `recPrefix` (the spec's `prefix` field) is
required. `olsOntology` is the registry flag marking OLS-backed ontology
prefixes. -/
structure ResourceRecord where
  recPrefix : String
  pattern : Option Rgx
  exampleId : Option String
  uriFormat : Option String
  preferredPrefix : Option String
  olsOntology : Bool
deriving Repr, DecidableEq

/-- Modelled from the spec: the `doi` registry record. -/
def doiResource : ResourceRecord :=
  { recPrefix := "doi", pattern := none,
    exampleId := some "10.1038/nbt1156",
    uriFormat := some "https://doi.org/$1",
    preferredPrefix := none, olsOntology := false }

/-- Modelled from the spec: the `arxiv` registry record. -/
def arxivResource : ResourceRecord :=
  { recPrefix := "arxiv", pattern := none, exampleId := none,
    uriFormat := some "https://arxiv.org/abs/$1",
    preferredPrefix := some "arXiv", olsOntology := false }

/-- Modelled from the spec: the `taxonomy` registry record. -/
def taxonomyResource : ResourceRecord :=
  { recPrefix := "taxonomy", pattern := some digitsRgx,
    exampleId := some "9606",
    uriFormat := none, preferredPrefix := none, olsOntology := false }

/-- Modelled from the spec: the `chebi` registry record. -/
def chebiResource : ResourceRecord :=
  { recPrefix := "chebi", pattern := some digitsRgx,
    exampleId := some "36927",
    uriFormat := none, preferredPrefix := some "ChEBI", olsOntology := false }

/-- Modelled from the spec: the `doid` registry record, flagged as an
OLS-backed ontology. -/
def doidResource : ResourceRecord :=
  { recPrefix := "doid", pattern := some digitsRgx,
    exampleId := some "11337",
    uriFormat := none, preferredPrefix := some "DOID", olsOntology := true }

/-- Modelled from the spec: the `clinicaltrials` registry record. -/
def clinicaltrialsResource : ResourceRecord :=
  { recPrefix := "clinicaltrials",
    pattern := some (.cat (strLit "NCT") digitsRgx),
    exampleId := some "NCT00222573",
    uriFormat := none, preferredPrefix := none, olsOntology := false }

/-- Modelled from the spec: the `gramene.growthstage` registry record. -/
def grameneResource : ResourceRecord :=
  { recPrefix := "gramene.growthstage", pattern := some digitsRgx,
    exampleId := some "0007133",
    uriFormat := none, preferredPrefix := none, olsOntology := false }

/-- Modelled from the spec: a registry record with neither an override rule
nor a generic template, as the spec allows (`uri_format` is optional). -/
def nouriResource : ResourceRecord :=
  { recPrefix := "nouri", pattern := none, exampleId := none,
    uriFormat := none, preferredPrefix := none, olsOntology := false }

/-- Modelled from the spec: the bioregistry dataset itself is external data
not present in the sampled sources. This list carries the records that the
spec's worked examples and tests exercise. -/
def bioregistry : List ResourceRecord :=
  [ doiResource, arxivResource, taxonomyResource, chebiResource,
    doidResource, clinicaltrialsResource, grameneResource, nouriResource ]

/-- Modelled from the spec: `loadRegistry`/`get_bioregistry` returns the full
registry; the `compile_patterns` flag only precompiles patterns (a caching
detail with no observable effect on the returned records). -/
def get_bioregistry (_compilePatterns : Bool) : List ResourceRecord :=
  bioregistry

/-- Modelled from the spec: the process-wide registry cache, made explicit as
state. `cached` is the memoised registry; `fetchCount` counts invocations of
the underlying fetch/parse. -/
structure RegistryStore where
  cached : Option (List ResourceRecord)
  fetchCount : Nat
deriving Repr, DecidableEq

/-- Modelled from the spec: the underlying dataset fetch/parse, triggered at
most once per process. -/
def fetchRegistry : List ResourceRecord := bioregistry

/-- Modelled from the spec: guarded one-time initialisation of the registry.
A cache hit serves the memoised registry without re-triggering the fetch; a
miss fetches, caches and counts the fetch. -/
def loadRegistry : RegistryStore → List ResourceRecord × RegistryStore
  | { cached := some reg, fetchCount := n } =>
    (reg, { cached := some reg, fetchCount := n })
  | { cached := none, fetchCount := n } =>
    (fetchRegistry, { cached := some fetchRegistry, fetchCount := n + 1 })

/-- Modelled from the spec: `get_prefix_to_resource`/`buildPrefixIndex` maps
each record's literal prefix field to the record. -/
def get_prefix_to_resource : List (String × ResourceRecord) :=
  bioregistry.map (fun r => (r.recPrefix, r))

/-- Modelled from the spec: prefix lookup tries an exact match on the literal
prefix field first, then a lowercase-normalised match, and otherwise fails. -/
def lookupResource (p : String) : Option ResourceRecord :=
  match bioregistry.find? (fun r => r.recPrefix == p) with
  | some r => some r
  | none => bioregistry.find? (fun r => r.recPrefix == lowerStr p)

/-- Splits a character list at the first colon, if any. -/
def breakAtColon : List Char → Option (List Char × List Char)
  | [] => none
  | c :: cs =>
    if c = ':' then some ([], cs)
    else
      match breakAtColon cs with
      | none => none
      | some (a, b) => some (c :: a, b)

/-- Modelled from the spec: strict CURIE parsing. The input is split at the
first colon; parsing fails when there is no separator or either half is
empty. -/
def parseCurie (s : String) : Option (String × String) :=
  match breakAtColon s.data with
  | none => none
  | some (p, a) =>
    if p.isEmpty ∨ a.isEmpty then none else some (⟨p⟩, ⟨a⟩)

/-- Modelled from the spec: the OverrideTable. Keyed by the canonical
(registry) prefix; consulted before the generic template. Returns
`not-applicable` (`none`) when no override matches. -/
def overrideUrl (canonical accession : String) (r : ResourceRecord) :
    Option String :=
  if canonical = "doi" then
    some ("https://doi.org/" ++ accession)
  else if canonical = "arxiv" then
    some ("https://arxiv.org/abs/" ++ accession)
  else if canonical = "taxonomy" then
    some ("https://www.ncbi.nlm.nih.gov/Taxonomy/Browser/wwwtax.cgi?mode=Info&id="
      ++ accession)
  else if canonical = "chebi" then
    some ("https://www.ebi.ac.uk/chebi/searchId.do?chebiId=CHEBI:" ++ accession)
  else if r.olsOntology then
    some ("https://www.ebi.ac.uk/ols/ontologies/" ++ lowerStr canonical
      ++ "/terms?obo_id=" ++ upperStr canonical ++ ":" ++ accession)
  else if canonical = "clinicaltrials" then
    some ("https://clinicaltrials.gov/ct2/show/" ++ accession)
  else if canonical = "gramene.growthstage" then
    some ("http://www.gramene.org/db/ontology/search?id=GRO:" ++ accession)
  else
    none

/-- Substitutes the accession for the first `$1` placeholder of a generic
URI template, over character lists. -/
def substAux : List Char → List Char → List Char
  | [], _ => []
  | '$' :: '1' :: rest, acc => acc ++ rest
  | c :: rest, acc => c :: substAux rest acc

/-- Modelled from the spec: generic template resolution by simple
single-placeholder substitution of the accession. -/
def substituteAccession (template accession : String) : String :=
  ⟨substAux template.data accession.data⟩

/-- Modelled from the spec: the error taxonomy raised by `curie_to_url`. -/
inductive CurieError where
  | malformedCurie
  | unknownPrefix
  | unresolvableTemplate
deriving Repr, DecidableEq

/-- Modelled from the spec: resolution of an already-parsed CURIE. Looks up
the prefix (failing with UnknownPrefix), consults the OverrideTable first,
falls back to the record's generic template, and fails with
UnresolvableTemplate when neither exists. -/
def resolveWith (p accession : String) : Except CurieError String :=
  match lookupResource p with
  | none => .error .unknownPrefix
  | some r =>
    match overrideUrl r.recPrefix accession r with
    | some url => .ok url
    | none =>
      match r.uriFormat with
      | some t => .ok (substituteAccession t accession)
      | none => .error .unresolvableTemplate

/-- Modelled from the spec: `resolve`/`curie_to_url`. Parses the CURIE
strictly (failing with MalformedCurie), then resolves it. -/
def curie_to_url (curie : String) : Except CurieError String :=
  match parseCurie curie with
  | none => .error .malformedCurie
  | some (p, a) => resolveWith p a

/-- Modelled from the spec: the PatternValidator. Nothing to validate when
the record declares no pattern; otherwise a full-string match of the
accession, producing a human-readable diagnostic on mismatch. -/
def patternCheck (r : ResourceRecord) (accession : String) : Option String :=
  match r.pattern with
  | none => none
  | some rgx =>
    if fullmatch rgx accession then none
    else some ("accession " ++ accession ++ " does not match the pattern for "
      ++ r.recPrefix)

/-- Modelled from the spec: `Handler_CURIE.inspect`. Parses the CURIE, looks
up its prefix and delegates to the PatternValidator; returns `none` when the
CURIE does not parse, the prefix is unresolvable, or validation passes. It
never fails: its result type is a diagnostic or `none`. -/
def inspect (curie : String) : Option String :=
  match parseCurie curie with
  | none => none
  | some (p, a) =>
    match lookupResource p with
    | none => none
    | some r => patternCheck r a

/-- Modelled from the spec: the registry self-consistency check run by the
test suite — for every record carrying both a pattern and an example,
inspecting the CURIE built from the record's prefix and example produces no
diagnostic. -/
def registrySelfConsistent : Bool :=
  bioregistry.all fun r =>
    match r.pattern, r.exampleId with
    | some _, some ex => (inspect (r.recPrefix ++ ":" ++ ex)).isNone
    | _, _ => true

/-- Pandoc metadata values as surfaced to `process_citations` by panflute's
`Doc.get_metadata`, which converts MetaString to a string, MetaBool to a
boolean, MetaMap to a dict and MetaList to a list. -/
inductive MetaValue where
  | str (s : String)
  | boolean (b : Bool)
  | dict (kvs : List (String × MetaValue))
  | arr (xs : List MetaValue)
deriving Repr

/-- A pandoc document as seen by the cite filter: its metadata mapping. -/
structure PandocDoc where
  metadata : List (String × MetaValue)

/-- `doc.get_metadata(key)`: the metadata value at `key`, or `none` (Python
`None`) when the key is absent. -/
def get_metadata (doc : PandocDoc) (key : String) : Option MetaValue :=
  doc.metadata.lookup key

/-- The warning message logged when `metadata.manubot-bibliography-cache` is
neither a string nor null (the source message also names the offending
value's Python class). -/
def bibCacheWarning : String :=
  "Expected metadata.manubot-bibliography-cache to be a string or null (None). Setting to None."

/-- The warning message logged when `metadata.citekey-aliases` is not a dict
(the source message also names the offending value's Python class). -/
def citekeyAliasesWarning : String :=
  "Expected metadata.citekey-aliases to be a dict. Disregarding."

/-- The document state produced by the metadata-processing prefix of
`process_citations`: the coerced `bibliography_cache` and `citekey_aliases`
values stored on `doc.manubot`, plus the warnings logged while coercing. -/
structure CitationMeta where
  bibliography_cache : Option String
  citekey_aliases : List (String × MetaValue)
  warnings : List String
deriving Repr

/-- The metadata-coercion prefix of `process_citations`
(`manubot/pandoc/cite_filter.py`, lines 174-191). Reads
`metadata.manubot-bibliography-cache`; when it is neither a string nor
null/absent, logs a warning and proceeds with `None`. Reads
`metadata.citekey-aliases` with default `{}`; when it is not a dict, logs a
warning and proceeds with an empty dict. Processing always continues: this
function is total and its result feeds the rest of the pipeline. -/
def process_citations (doc : PandocDoc) : CitationMeta :=
  let bib0 := get_metadata doc "manubot-bibliography-cache"
  let bibOk : Bool :=
    match bib0 with
    | none => true
    | some (MetaValue.str _) => true
    | some _ => false
  let bib_cache : Option String :=
    match bib0 with
    | some (MetaValue.str s) => some s
    | _ => none
  let ali0 := (get_metadata doc "citekey-aliases").getD (MetaValue.dict [])
  let aliOk : Bool :=
    match ali0 with
    | MetaValue.dict _ => true
    | _ => false
  let citekey_aliases : List (String × MetaValue) :=
    match ali0 with
    | MetaValue.dict kvs => kvs
    | _ => []
  { bibliography_cache := bib_cache,
    citekey_aliases := citekey_aliases,
    warnings :=
      (if bibOk then [] else [bibCacheWarning])
        ++ (if aliOk then [] else [citekeyAliasesWarning]) }

/-- A document whose `manubot-bibliography-cache` metadata is a boolean (so
neither a string nor null) and whose `citekey-aliases` metadata is a string
(so not a dict) — both ill-typed at the filter's public interface. -/
def exampleDoc : PandocDoc :=
  { metadata := [("manubot-bibliography-cache", MetaValue.boolean true),
                 ("citekey-aliases", MetaValue.str "tags")] }

deriving instance DecidableEq for Except

/-- Every record of the modelled registry stores its prefix in lowercase, the
registry convention the spec's two-step lookup policy relies on. -/
theorem bioregistry_keys_lower :
    ∀ r ∈ bioregistry, lowerStr r.recPrefix = r.recPrefix := by decide

/-- The two-step lookup (exact, then lowercased) agrees with a single lookup
of the lowercased prefix, because the registry keys are lowercase. -/
theorem lookupResource_lower (p : String) :
    lookupResource p
      = bioregistry.find? (fun r => r.recPrefix == lowerStr p) := by
  unfold lookupResource
  cases h : bioregistry.find? (fun r => r.recPrefix == p) with
  | none => rfl
  | some r =>
    have hpr : r.recPrefix = p := by
      have hp := List.find?_some h
      simpa using hp
    have hmem : r ∈ bioregistry := List.mem_of_find?_eq_some h
    have hlow : lowerStr p = p := by
      rw [← hpr]
      exact bioregistry_keys_lower r hmem
    rw [hlow, h]

/-- Any casing of `doi` resolves through the doi override rule, preserving
the accession verbatim. -/
theorem resolveWith_doi (p a : String) (hp : lowerStr p = "doi") :
    resolveWith p a = .ok ("https://doi.org/" ++ a) := by
  unfold resolveWith
  rw [lookupResource_lower, hp]
  rfl

/-- Any casing of `chebi` resolves through the chebi override rule,
re-prefixing the accession with the literal `CHEBI:`. -/
theorem resolveWith_chebi (p a : String) (hp : lowerStr p = "chebi") :
    resolveWith p a
      = .ok ("https://www.ebi.ac.uk/chebi/searchId.do?chebiId=CHEBI:" ++ a) := by
  unfold resolveWith
  rw [lookupResource_lower, hp]
  rfl

/-- Any casing of `doid` resolves through the OLS override rule. -/
theorem resolveWith_doid (p a : String) (hp : lowerStr p = "doid") :
    resolveWith p a
      = .ok ("https://www.ebi.ac.uk/ols/ontologies/doid/terms?obo_id=DOID:" ++ a) := by
  unfold resolveWith
  rw [lookupResource_lower, hp]
  rfl

/-- Any casing of `arxiv` resolves through the arxiv override rule. -/
theorem resolveWith_arxiv (p a : String) (hp : lowerStr p = "arxiv") :
    resolveWith p a = .ok ("https://arxiv.org/abs/" ++ a) := by
  unfold resolveWith
  rw [lookupResource_lower, hp]
  rfl

/-- Any casing of `taxonomy` resolves through the taxonomy override rule. -/
theorem resolveWith_taxonomy (p a : String) (hp : lowerStr p = "taxonomy") :
    resolveWith p a
      = .ok ("https://www.ncbi.nlm.nih.gov/Taxonomy/Browser/wwwtax.cgi?mode=Info&id="
        ++ a) := by
  unfold resolveWith
  rw [lookupResource_lower, hp]
  rfl

/-- Any casing of `clinicaltrials` resolves through the clinicaltrials
override rule. -/
theorem resolveWith_clinicaltrials (p a : String)
    (hp : lowerStr p = "clinicaltrials") :
    resolveWith p a = .ok ("https://clinicaltrials.gov/ct2/show/" ++ a) := by
  unfold resolveWith
  rw [lookupResource_lower, hp]
  rfl

/-- Any casing of `gramene.growthstage` resolves through the hardcoded GRO
remap. -/
theorem resolveWith_gramene (p a : String)
    (hp : lowerStr p = "gramene.growthstage") :
    resolveWith p a
      = .ok ("http://www.gramene.org/db/ontology/search?id=GRO:" ++ a) := by
  unfold resolveWith
  rw [lookupResource_lower, hp]
  rfl

/-- `resolveWith` never reports a malformed CURIE: parsing happens before it
runs. -/
theorem resolveWith_not_malformed (p a : String) :
    resolveWith p a ≠ .error .malformedCurie := by
  unfold resolveWith
  split
  · simp
  · split
    · simp
    · split <;> simp

/-- `resolveWith` reports an unknown prefix exactly when both lookup steps
fail. -/
theorem resolveWith_unknown_iff (p a : String) :
    resolveWith p a = .error .unknownPrefix ↔ lookupResource p = none := by
  cases h : lookupResource p with
  | none => simp [resolveWith, h]
  | some r =>
    simp only [resolveWith, h]
    cases ho : overrideUrl r.recPrefix a r with
    | some url => simp
    | none =>
      cases hu : r.uriFormat with
      | some t => simp
      | none => simp

/-- `resolveWith` reports an unresolvable template exactly when the prefix is
known but neither an override rule nor a generic template applies. -/
theorem resolveWith_unres_iff (p a : String) :
    resolveWith p a = .error .unresolvableTemplate ↔
      ∃ r, lookupResource p = some r ∧ overrideUrl r.recPrefix a r = none ∧
        r.uriFormat = none := by
  cases h : lookupResource p with
  | none => simp [resolveWith, h]
  | some r =>
    simp only [resolveWith, h]
    cases ho : overrideUrl r.recPrefix a r with
    | some url => simp [h, ho]
    | none =>
      cases hu : r.uriFormat with
      | some t => simp [h, ho, hu]
      | none => simp [h, ho, hu]

/-- `curie_to_url` reports a malformed CURIE exactly when strict parsing
fails. -/
theorem curie_to_url_malformed_iff (c : String) :
    curie_to_url c = .error .malformedCurie ↔ parseCurie c = none := by
  cases h : parseCurie c with
  | none => simp [curie_to_url, h]
  | some pa =>
    obtain ⟨p, a⟩ := pa
    simp [curie_to_url, h, resolveWith_not_malformed p a]

/-- `curie_to_url` reports an unknown prefix exactly when the CURIE parses
but both prefix-lookup steps fail. -/
theorem curie_to_url_unknown_iff (c : String) :
    curie_to_url c = .error .unknownPrefix ↔
      ∃ p a, parseCurie c = some (p, a) ∧ lookupResource p = none := by
  cases h : parseCurie c with
  | none => simp [curie_to_url, h]
  | some pa =>
    obtain ⟨p, a⟩ := pa
    simp only [curie_to_url, h]
    rw [resolveWith_unknown_iff]
    simp

/-- `curie_to_url` reports an unresolvable template exactly when the CURIE
parses, the prefix is known, but neither an override rule nor a generic
template applies. -/
theorem curie_to_url_unres_iff (c : String) :
    curie_to_url c = .error .unresolvableTemplate ↔
      ∃ p a r, parseCurie c = some (p, a) ∧ lookupResource p = some r ∧
        overrideUrl r.recPrefix a r = none ∧ r.uriFormat = none := by
  cases h : parseCurie c with
  | none => simp [curie_to_url, h]
  | some pa =>
    obtain ⟨p, a⟩ := pa
    have hc : curie_to_url c = resolveWith p a := by
      unfold curie_to_url
      rw [h]
    rw [hc, resolveWith_unres_iff]
    constructor
    · rintro ⟨r, hl, ho, hu⟩
      exact ⟨p, a, r, rfl, hl, ho, hu⟩
    · rintro ⟨p2, a2, r, hpa, hl, ho, hu⟩
      injection hpa with heq2
      injection heq2 with hp2 ha2
      subst hp2
      subst ha2
      exact ⟨r, hl, ho, hu⟩

/-- Every registry record flagged as an OLS-backed ontology resolves, for
every accession, to the OLS URL shape: lowercase prefix in the path segment,
uppercase canonical prefix in the query value. -/
theorem ols_flagged_shape :
    ∀ r ∈ bioregistry, r.olsOntology = true → ∀ a,
      resolveWith r.recPrefix a
        = .ok ("https://www.ebi.ac.uk/ols/ontologies/" ++ lowerStr r.recPrefix
            ++ "/terms?obo_id=" ++ upperStr r.recPrefix ++ ":" ++ a) := by
  intro r hr hols a
  simp only [bioregistry, List.mem_cons, List.not_mem_nil, or_false] at hr
  rcases hr with rfl | rfl | rfl | rfl | rfl | rfl | rfl | rfl
  · exact absurd hols (by decide)
  · exact absurd hols (by decide)
  · exact absurd hols (by decide)
  · exact absurd hols (by decide)
  · rfl
  · exact absurd hols (by decide)
  · exact absurd hols (by decide)
  · exact absurd hols (by decide)

/-- Claim C1: for the doi prefix, resolution returns "https://doi.org/"
followed by the accession with its case preserved verbatim, and the prefix is
matched case-insensitively: resolving "doi:10.1038/nbt1156" and
"DOI:10.1038/nbt1156" both yields exactly
"https://doi.org/10.1038/nbt1156". -/
theorem c1_doi_resolution :
    (∀ p a, lowerStr p = "doi" →
      resolveWith p a = .ok ("https://doi.org/" ++ a))
    ∧ curie_to_url "doi:10.1038/nbt1156" = .ok "https://doi.org/10.1038/nbt1156"
    ∧ curie_to_url "DOI:10.1038/nbt1156"
        = .ok "https://doi.org/10.1038/nbt1156" :=
  ⟨resolveWith_doi, by decide, by decide⟩

/-- Claim C1 witness: the general doi rule instantiated at prefix "DOI" and
accession "10.1038/nbt1156". -/
theorem c1_doi_resolution_witness :
    resolveWith "DOI" "10.1038/nbt1156"
      = .ok ("https://doi.org/" ++ "10.1038/nbt1156") :=
  c1_doi_resolution.1 "DOI" "10.1038/nbt1156" (by decide)

/-- Claim C2: curie_to_url fails exactly when the CURIE has no separator or
an empty half (MalformedCurie), the prefix is found by neither exact nor
lowercase lookup (UnknownPrefix), or neither an override rule nor a usable
generic template exists (UnresolvableTemplate); in particular
"this.is.not:a_curie" yields UnknownPrefix. -/
theorem c2_error_taxonomy :
    (∀ c, curie_to_url c = .error .malformedCurie ↔ parseCurie c = none)
    ∧ (∀ c, curie_to_url c = .error .unknownPrefix ↔
        ∃ p a, parseCurie c = some (p, a) ∧ lookupResource p = none)
    ∧ (∀ c, curie_to_url c = .error .unresolvableTemplate ↔
        ∃ p a r, parseCurie c = some (p, a) ∧ lookupResource p = some r ∧
          overrideUrl r.recPrefix a r = none ∧ r.uriFormat = none)
    ∧ curie_to_url "this.is.not:a_curie" = .error .unknownPrefix :=
  ⟨curie_to_url_malformed_iff, curie_to_url_unknown_iff, curie_to_url_unres_iff,
    by decide⟩

/-- Claim C2 witness: the UnresolvableTemplate characterisation instantiated
at the record with neither an override nor a template. -/
theorem c2_error_taxonomy_witness :
    curie_to_url "nouri:123" = .error .unresolvableTemplate :=
  (c2_error_taxonomy.2.2.1 "nouri:123").mpr
    ⟨"nouri", "123", nouriResource, by decide, by decide, by decide, by decide⟩

/-- Claim C3: inspect never fails — every input yields a diagnostic or none;
it returns none whenever the CURIE's prefix is unresolvable or validation
passes; and for every registry record carrying both a pattern and an example,
inspecting "prefix:example" returns none (registry self-consistency). -/
theorem c3_inspect_total :
    (∀ c, inspect c = none ∨ ∃ d, inspect c = some d)
    ∧ (∀ c p a, parseCurie c = some (p, a) → lookupResource p = none →
        inspect c = none)
    ∧ (∀ c p a r, parseCurie c = some (p, a) → lookupResource p = some r →
        patternCheck r a = none → inspect c = none)
    ∧ registrySelfConsistent = true := by
  refine ⟨?_, ?_, ?_, by decide⟩
  · intro c
    cases h : inspect c with
    | none => exact Or.inl rfl
    | some d => exact Or.inr ⟨d, rfl⟩
  · intro c p a hp hl
    simp [inspect, hp, hl]
  · intro c p a r hp hl hc
    simp [inspect, hp, hl, hc]

/-- Claim C3 witness: the validation-passes case instantiated at
"doid:11337". -/
theorem c3_inspect_total_witness :
    parseCurie "doid:11337" = some ("doid", "11337")
    ∧ lookupResource "doid" = some doidResource
    ∧ patternCheck doidResource "11337" = none
    ∧ inspect "doid:11337" = none :=
  ⟨by decide, by decide, by decide,
    c3_inspect_total.2.2.1 "doid:11337" "doid" "11337" doidResource
      (by decide) (by decide) (by decide)⟩

/-- Claim C4: for the chebi prefix under any casing, resolution re-prefixes
the accession with the fixed uppercase literal "CHEBI:"; in particular
"CHEBI:36927" and "ChEBI:36927" both resolve to
"https://www.ebi.ac.uk/chebi/searchId.do?chebiId=CHEBI:36927". -/
theorem c4_chebi_resolution :
    (∀ p a, lowerStr p = "chebi" →
      resolveWith p a
        = .ok ("https://www.ebi.ac.uk/chebi/searchId.do?chebiId=CHEBI:" ++ a))
    ∧ curie_to_url "CHEBI:36927"
        = .ok "https://www.ebi.ac.uk/chebi/searchId.do?chebiId=CHEBI:36927"
    ∧ curie_to_url "ChEBI:36927"
        = .ok "https://www.ebi.ac.uk/chebi/searchId.do?chebiId=CHEBI:36927" :=
  ⟨resolveWith_chebi, by decide, by decide⟩

/-- Claim C4 witness: the general chebi rule instantiated at prefix "ChEBI"
and accession "36927". -/
theorem c4_chebi_resolution_witness :
    resolveWith "ChEBI" "36927"
      = .ok ("https://www.ebi.ac.uk/chebi/searchId.do?chebiId=CHEBI:" ++ "36927") :=
  c4_chebi_resolution.1 "ChEBI" "36927" (by decide)

/-- Claim C5: every registry record flagged as an OLS-backed ontology
resolves to "https://www.ebi.ac.uk/ols/ontologies/{lowercase prefix}/terms?obo_id={uppercase prefix}:{accession}",
independent of input-prefix casing; in particular "DOID:11337" and
"doid:11337" both resolve to
"https://www.ebi.ac.uk/ols/ontologies/doid/terms?obo_id=DOID:11337". -/
theorem c5_ols_resolution :
    (∀ r ∈ bioregistry, r.olsOntology = true → ∀ a,
      resolveWith r.recPrefix a
        = .ok ("https://www.ebi.ac.uk/ols/ontologies/" ++ lowerStr r.recPrefix
            ++ "/terms?obo_id=" ++ upperStr r.recPrefix ++ ":" ++ a))
    ∧ (∀ p a, lowerStr p = "doid" →
        resolveWith p a
          = .ok ("https://www.ebi.ac.uk/ols/ontologies/doid/terms?obo_id=DOID:"
              ++ a))
    ∧ curie_to_url "DOID:11337"
        = .ok "https://www.ebi.ac.uk/ols/ontologies/doid/terms?obo_id=DOID:11337"
    ∧ curie_to_url "doid:11337"
        = .ok "https://www.ebi.ac.uk/ols/ontologies/doid/terms?obo_id=DOID:11337" :=
  ⟨ols_flagged_shape, resolveWith_doid, by decide, by decide⟩

/-- Claim C5 witness: the OLS shape instantiated at the doid record and
accession "11337". -/
theorem c5_ols_resolution_witness :
    resolveWith doidResource.recPrefix "11337"
      = .ok ("https://www.ebi.ac.uk/ols/ontologies/"
          ++ lowerStr doidResource.recPrefix ++ "/terms?obo_id="
          ++ upperStr doidResource.recPrefix ++ ":" ++ "11337") :=
  c5_ols_resolution.1 doidResource (by decide) (by decide) "11337"

/-- Claim C6: for the gramene.growthstage prefix, resolution remaps the
namespace to GRO: — "gramene.growthstage:0007133" resolves to exactly
"http://www.gramene.org/db/ontology/search?id=GRO:0007133". -/
theorem c6_gramene_resolution :
    (∀ p a, lowerStr p = "gramene.growthstage" →
      resolveWith p a
        = .ok ("http://www.gramene.org/db/ontology/search?id=GRO:" ++ a))
    ∧ curie_to_url "gramene.growthstage:0007133"
        = .ok "http://www.gramene.org/db/ontology/search?id=GRO:0007133" :=
  ⟨resolveWith_gramene, by decide⟩

/-- Claim C6 witness: the gramene.growthstage rule instantiated at accession
"0007133". -/
theorem c6_gramene_resolution_witness :
    resolveWith "gramene.growthstage" "0007133"
      = .ok ("http://www.gramene.org/db/ontology/search?id=GRO:" ++ "0007133") :=
  c6_gramene_resolution.1 "gramene.growthstage" "0007133" (by decide)

/-- Claim C7: the fixed-template override rules for arxiv, taxonomy and
clinicaltrials produce, for every accession a, the URLs
"https://arxiv.org/abs/"+a,
"https://www.ncbi.nlm.nih.gov/Taxonomy/Browser/wwwtax.cgi?mode=Info&id="+a
and "https://clinicaltrials.gov/ct2/show/"+a; in particular
"arXiv:0807.4956v1" and "clinicaltrials:NCT00222573" resolve to the worked
URLs. -/
theorem c7_fixed_templates :
    (∀ p a, lowerStr p = "arxiv" →
      resolveWith p a = .ok ("https://arxiv.org/abs/" ++ a))
    ∧ (∀ p a, lowerStr p = "taxonomy" →
      resolveWith p a
        = .ok ("https://www.ncbi.nlm.nih.gov/Taxonomy/Browser/wwwtax.cgi?mode=Info&id="
            ++ a))
    ∧ (∀ p a, lowerStr p = "clinicaltrials" →
      resolveWith p a = .ok ("https://clinicaltrials.gov/ct2/show/" ++ a))
    ∧ curie_to_url "arXiv:0807.4956v1" = .ok "https://arxiv.org/abs/0807.4956v1"
    ∧ curie_to_url "clinicaltrials:NCT00222573"
        = .ok "https://clinicaltrials.gov/ct2/show/NCT00222573" :=
  ⟨resolveWith_arxiv, resolveWith_taxonomy, resolveWith_clinicaltrials,
    by decide, by decide⟩

/-- Claim C7 witness: the taxonomy rule instantiated at accession "9606". -/
theorem c7_fixed_templates_witness :
    resolveWith "taxonomy" "9606"
      = .ok ("https://www.ncbi.nlm.nih.gov/Taxonomy/Browser/wwwtax.cgi?mode=Info&id="
          ++ "9606") :=
  c7_fixed_templates.2.1 "taxonomy" "9606" (by decide)

/-- Claim C8: loadRegistry is idempotent — a second call within the same
process returns a registry equal by value to the first call's result, serves
it from the cache (the store is unchanged), and does not re-trigger the
underlying fetch (the fetch count is unchanged). -/
theorem c8_loadRegistry_idempotent (s : RegistryStore) :
    (loadRegistry (loadRegistry s).2).1 = (loadRegistry s).1
    ∧ (loadRegistry (loadRegistry s).2).2 = (loadRegistry s).2
    ∧ ((loadRegistry (loadRegistry s).2).2).fetchCount
        = ((loadRegistry s).2).fetchCount := by
  obtain ⟨cached, n⟩ := s
  cases cached <;> simp [loadRegistry]

/-- Claim C8 witness: idempotence at the fresh store. -/
theorem c8_loadRegistry_idempotent_witness :
    (loadRegistry (loadRegistry (RegistryStore.mk none 0)).2).1
        = (loadRegistry (RegistryStore.mk none 0)).1
    ∧ (loadRegistry (loadRegistry (RegistryStore.mk none 0)).2).2
        = (loadRegistry (RegistryStore.mk none 0)).2
    ∧ ((loadRegistry (loadRegistry (RegistryStore.mk none 0)).2).2).fetchCount
        = ((loadRegistry (RegistryStore.mk none 0)).2).fetchCount :=
  c8_loadRegistry_idempotent (RegistryStore.mk none 0)

/-- Claim C9: the prefix-to-resource mapping contains the key "doid", and
setting the preferred-prefix field on the returned record is a total
operation producing the updated record — the embedding's rendering of "does
not raise". -/
theorem c9_prefix_index_doid :
    List.lookup "doid" get_prefix_to_resource = some doidResource
    ∧ ({ doidResource with preferredPrefix := some "DOID" }
        : ResourceRecord).preferredPrefix = some "DOID" :=
  ⟨by decide, rfl⟩

/-- Claim C10: ill-typed metadata at the cite filter's public interface is
coerced with a logged warning instead of failing — a non-string, non-null
manubot-bibliography-cache proceeds as None, and a non-dict citekey-aliases
proceeds as an empty dict; in both cases processing continues, producing the
state the rest of the pipeline consumes. -/
theorem c10_metadata_coercion (doc : PandocDoc) :
    (∀ v, get_metadata doc "manubot-bibliography-cache" = some v →
      (∀ s, v ≠ MetaValue.str s) →
      (process_citations doc).bibliography_cache = none
        ∧ bibCacheWarning ∈ (process_citations doc).warnings)
    ∧ (∀ v, get_metadata doc "citekey-aliases" = some v →
      (∀ kvs, v ≠ MetaValue.dict kvs) →
      (process_citations doc).citekey_aliases = []
        ∧ citekeyAliasesWarning ∈ (process_citations doc).warnings) := by
  constructor
  · intro v hv hne
    cases v with
    | str s => exact absurd rfl (hne s)
    | boolean b => constructor <;> simp [process_citations, hv]
    | dict _ => constructor <;> simp [process_citations, hv]
    | arr xs => constructor <;> simp [process_citations, hv]
  · intro v hv hne
    cases v with
    | dict kvs => exact absurd rfl (hne kvs)
    | str _ => constructor <;> simp [process_citations, hv]
    | boolean b => constructor <;> simp [process_citations, hv]
    | arr xs => constructor <;> simp [process_citations, hv]

/-- Claim C10 witness: both coercions at a document carrying a boolean
bibliography-cache entry and a string citekey-aliases entry. -/
theorem c10_metadata_coercion_witness :
    ((process_citations exampleDoc).bibliography_cache = none
      ∧ bibCacheWarning ∈ (process_citations exampleDoc).warnings)
    ∧ ((process_citations exampleDoc).citekey_aliases = []
      ∧ citekeyAliasesWarning ∈ (process_citations exampleDoc).warnings) :=
  ⟨(c10_metadata_coercion exampleDoc).1 (MetaValue.boolean true) rfl
      (fun _ h => nomatch h),
    (c10_metadata_coercion exampleDoc).2 (MetaValue.str "tags") rfl
      (fun _ h => nomatch h)⟩
